import Mathlib

/-!
Verification development for the WIFIOnOff smart-plug firmware.

The firmware keeps a CRC-protected, versioned configuration record in a
4096-byte EEPROM region, classifies button press durations into gestures
on a 100 ms tick, and coordinates relay state with a web UI and MQTT.

The EEPROM is modelled as a function from byte address to byte value
(`Nat → Nat`); every write truncates to a byte, mirroring the `uint8_t`
parameter of `EEPROM.write`.  Arduino `String` values are modelled as
`List Nat` of byte values.  `EEPROM.commit` only flushes the RAM buffer
to flash and is the identity on the byte contents, so it is not modelled
separately.
-/

set_option maxRecDepth 8000

namespace WIFIOnOff

/-- Write one byte to the EEPROM buffer.  `EEPROM.write` takes a
`uint8_t`, hence the truncation of the value to a byte. -/
def writeEEPROM (e : Nat → Nat) (a v : Nat) : Nat → Nat :=
  fun i => if i = a then v % 256 else e i

/-- Sixteen-entry nibble lookup table of `calculate_crc`
(from the Arduino EEPROMCrc example used by the firmware). -/
def crc_table : Nat → Nat
  | 0 => 0x00000000
  | 1 => 0x1db71064
  | 2 => 0x3b6e20c8
  | 3 => 0x26d930ac
  | 4 => 0x76dc4190
  | 5 => 0x6b6b51f4
  | 6 => 0x4db26158
  | 7 => 0x5005713c
  | 8 => 0xedb88320
  | 9 => 0xf00f9344
  | 10 => 0xd6d6a3e8
  | 11 => 0xcb61b38c
  | 12 => 0x9b64c2b0
  | 13 => 0x86d3d2d4
  | 14 => 0xa00ae278
  | 15 => 0xbdbdf21c
  | _ => 0

/-- One nibble update of the CRC state:
`crc = crc_table[(crc ^ x) & 0x0f] ^ (crc >> 4)`. -/
def crcNibbleStep (c x : Nat) : Nat :=
  crc_table ((c ^^^ x) &&& 15) ^^^ (c >>> 4)

/-- One byte of the loop body of `calculate_crc`: the two nibble
updates (low nibble from the byte, then the byte shifted right by 4),
followed by `crc = ~crc` (bitwise complement on the 32-bit value). -/
def crcByteStep (c b : Nat) : Nat :=
  crcNibbleStep (crcNibbleStep c b) (b >>> 4) ^^^ 0xFFFFFFFF

/-- Loop of `calculate_crc` over `n` consecutive EEPROM addresses
starting at `i`, with CRC accumulator `c`. -/
def crcRegion (e : Nat → Nat) : Nat → Nat → Nat → Nat
  | _, c, 0 => c
  | i, c, n + 1 => crcRegion e (i + 1) (crcByteStep c (e i)) n

/-- Model of `calculate_crc`: CRC over addresses
`EEPROM_address_start = 5` to `EEPROM.length() - 1 = 4095`, starting
from `~0L = 0xFFFFFFFF`. -/
def calculate_crc (e : Nat → Nat) : Nat :=
  crcRegion e 5 0xFFFFFFFF 4091

/-- Loop body of `storeCRC`: write the four little-endian bytes of a
32-bit value at addresses `EEPROM_address_CRC = 1` through `4`. -/
def storeCRCBytes (e : Nat → Nat) (crc : Nat) : Nat → Nat :=
  writeEEPROM (writeEEPROM (writeEEPROM (writeEEPROM e 1 crc) 2 (crc >>> 8)) 3 (crc >>> 16)) 4 (crc >>> 24)

/-- Model of `storeCRC`: compute the CRC with `calculate_crc` and write
its four bytes into the checksum field. -/
def storeCRC (e : Nat → Nat) : Nat → Nat :=
  storeCRCBytes e (calculate_crc e)

/-- Model of `retrieveCRC`: reassemble the stored 32-bit CRC from the
four little-endian bytes at addresses 1 through 4. -/
def retrieveCRC (e : Nat → Nat) : Nat :=
  e 1 + e 2 * 256 + e 3 * 65536 + e 4 * 16777216

/-- Model of `checkCRC`: the computed CRC matches the stored CRC. -/
def checkCRC (e : Nat → Nat) : Bool :=
  calculate_crc e == retrieveCRC e

/-- Model of `storeEEPROMVersionNumber`: write
`EEPROM_version_number = 1` at address 0. -/
def storeEEPROMVersionNumber (e : Nat → Nat) : Nat → Nat :=
  writeEEPROM e 0 1

/-- Model of `checkEEPROMVersionNumber`: the stored schema version
equals the compiled-in `EEPROM_version_number = 1`. -/
def checkEEPROMVersionNumber (e : Nat → Nat) : Bool :=
  e 0 == 1

/-- Ascending sequence of byte writes: writes `f 0 .. f (n-1)` at
addresses `base .. base+n-1` (the common loop shape of the firmware,
e.g. the body of `saveMQTTConfigurationToEEPROM`). -/
def writeSeq (e : Nat → Nat) (base : Nat) (f : Nat → Nat) : Nat → (Nat → Nat)
  | 0 => e
  | n + 1 => writeEEPROM (writeSeq e base f n) (base + n) (f n)

/-- Byte `i` of the `c_str()` buffer of an Arduino `String` holding the
byte list `s`: the characters, then the zero terminator, then
unspecified memory contents `junk` (the firmware loops over the full
256-byte slot, reading past the terminator). -/
def cStrByte (s : List Nat) (junk : Nat → Nat) (i : Nat) : Nat :=
  if h : i < s.length then s.get ⟨i, h⟩
  else if i = s.length then 0
  else junk i

/-- Model of `saveOtaPasswordToEEPROM`: write the 256-byte OTA password
slot at `EEPROM_address_OTA_password = 262`, then store the CRC (the
final `EEPROM.commit` is the identity on contents). -/
def saveOtaPasswordToEEPROM (e : Nat → Nat) (pw : List Nat) (junk : Nat → Nat) : Nat → Nat :=
  storeCRC (writeSeq e 262 (cStrByte pw junk) 256)

/-- Model of `initEEPROM`: overwrite the whole region with
`EEPROM_init_value = 0x00`, stamp the version number, then save the
default OTA password (which also stores the CRC and commits). -/
def initEEPROM (e : Nat → Nat) (pw : List Nat) (junk : Nat → Nat) : Nat → Nat :=
  saveOtaPasswordToEEPROM (storeEEPROMVersionNumber (writeSeq e 0 (fun _ => 0) 4096)) pw junk

/-- Reinitialization condition of `setupEEPROM`: the region is wiped and
rewritten (`wasReinitialized = true`) exactly when the CRC check or the
version check fails. -/
def setupEEPROMReinitializes (e : Nat → Nat) : Bool :=
  !checkCRC e || !checkEEPROMVersionNumber e

/-- Model of `setupEEPROM`: reinitialize if the CRC or version check
fails, reporting whether the destructive reinitialization ran. -/
def setupEEPROM (e : Nat → Nat) (pw : List Nat) (junk : Nat → Nat) : (Nat → Nat) × Bool :=
  if setupEEPROMReinitializes e then (initEEPROM e pw junk, true) else (e, false)

/-- Model of `saveMQTTConfigurationToEEPROM`: write the configured flag
(sentinel `0xEB` for enabled, `0x00` for disabled) at
`EEPROM_address_MQTT_server_configured = 5`, the 256-byte server slot
at `EEPROM_address_MQTT_server = 6`, then store the CRC and commit. -/
def saveMQTTConfigurationToEEPROM (e : Nat → Nat) (server : List Nat) (configured : Bool)
    (junk : Nat → Nat) : Nat → Nat :=
  storeCRC (writeSeq (writeEEPROM e 5 (if configured then 0xEB else 0x00)) 6 (cStrByte server junk) 256)

/-- Read `n` consecutive EEPROM bytes starting at `base`. -/
def readBytes (e : Nat → Nat) (base : Nat) : Nat → List Nat
  | 0 => []
  | n + 1 => e base :: readBytes e (base + 1) n

/-- Model of `restoreMQTTConfigurationFromEEPROM`: read the 256-byte
server slot into a buffer and build an Arduino `String` from it (which
stops at the first zero byte), and read the configured flag, comparing
it to the sentinel `0xEB`. -/
def restoreMQTTConfigurationFromEEPROM (e : Nat → Nat) : List Nat × Bool :=
  ((readBytes e 6 256).takeWhile (fun b => b != 0), e 5 == 0xEB)

/-- All-zero EEPROM contents. -/
def zeroStore : Nat → Nat := fun _ => 0

/-- Store contents whose data region is all zeros, with the matching
CRC (little-endian bytes 250, 113, 110, 61 of 1030648314) at addresses
1..4 and the schema version 1 at address 0: a store that passes both
boot-time checks. -/
def validStore : Nat → Nat := fun i =>
  if i = 0 then 1
  else if i = 1 then 250
  else if i = 2 then 113
  else if i = 3 then 110
  else if i = 4 then 61
  else 0

/-- Splitting the CRC loop: processing `m + n` bytes equals processing
`m` bytes and continuing with the remaining `n`. -/
theorem crcRegion_add (e : Nat → Nat) (m : Nat) : forall n i c,
    crcRegion e i c (m + n) = crcRegion e (i + m) (crcRegion e i c m) n := by
  induction m with
  | zero =>
    intro n i c
    rw [Nat.zero_add, Nat.add_zero]
    rfl
  | succ m ih =>
    intro n i c
    have h1 : m + 1 + n = (m + n) + 1 := by omega
    rw [h1]
    show crcRegion e (i + 1) (crcByteStep c (e i)) (m + n) = _
    rw [ih]
    have h2 : i + 1 + m = i + (m + 1) := by omega
    rw [h2]
    rfl

/-- Evaluate a prefix chunk of the CRC loop and continue on the rest. -/
theorem crcRegion_chunk {e : Nat → Nat} {i c n r : Nat} (m v : Nat)
    (hm : m <= n) (hv : crcRegion e i c m = v)
    (hr : crcRegion e (i + m) v (n - m) = r) :
    crcRegion e i c n = r := by
  have hn : n = m + (n - m) := by omega
  rw [hn, crcRegion_add, hv, hr]

/-- CRC value the firmware computes over an all-zero data region. -/
theorem calculate_crc_zeroStore : calculate_crc zeroStore = 1030648314 := by
  unfold calculate_crc
  apply crcRegion_chunk 100 1017753544 (by omega) (by decide)
  apply crcRegion_chunk 100 3685119098 (by omega) (by decide)
  apply crcRegion_chunk 100 2142239928 (by omega) (by decide)
  apply crcRegion_chunk 100 2783320845 (by omega) (by decide)
  apply crcRegion_chunk 100 981613117 (by omega) (by decide)
  apply crcRegion_chunk 100 3252175419 (by omega) (by decide)
  apply crcRegion_chunk 100 3036315839 (by omega) (by decide)
  apply crcRegion_chunk 100 2993194620 (by omega) (by decide)
  apply crcRegion_chunk 100 715090225 (by omega) (by decide)
  apply crcRegion_chunk 100 326537150 (by omega) (by decide)
  apply crcRegion_chunk 100 1891522312 (by omega) (by decide)
  apply crcRegion_chunk 100 213485188 (by omega) (by decide)
  apply crcRegion_chunk 100 3284158328 (by omega) (by decide)
  apply crcRegion_chunk 100 2111939629 (by omega) (by decide)
  apply crcRegion_chunk 100 1200952439 (by omega) (by decide)
  apply crcRegion_chunk 100 3995742225 (by omega) (by decide)
  apply crcRegion_chunk 100 3311028805 (by omega) (by decide)
  apply crcRegion_chunk 100 232556001 (by omega) (by decide)
  apply crcRegion_chunk 100 4133512394 (by omega) (by decide)
  apply crcRegion_chunk 100 413288117 (by omega) (by decide)
  apply crcRegion_chunk 100 3444406032 (by omega) (by decide)
  apply crcRegion_chunk 100 4095347697 (by omega) (by decide)
  apply crcRegion_chunk 100 389970839 (by omega) (by decide)
  apply crcRegion_chunk 100 806865379 (by omega) (by decide)
  apply crcRegion_chunk 100 3804035350 (by omega) (by decide)
  apply crcRegion_chunk 100 1123561806 (by omega) (by decide)
  apply crcRegion_chunk 100 985132762 (by omega) (by decide)
  apply crcRegion_chunk 100 3373490728 (by omega) (by decide)
  apply crcRegion_chunk 100 1261219755 (by omega) (by decide)
  apply crcRegion_chunk 100 586485661 (by omega) (by decide)
  apply crcRegion_chunk 100 412035056 (by omega) (by decide)
  apply crcRegion_chunk 100 1936419847 (by omega) (by decide)
  apply crcRegion_chunk 100 1585551588 (by omega) (by decide)
  apply crcRegion_chunk 100 1907297969 (by omega) (by decide)
  apply crcRegion_chunk 100 2762574535 (by omega) (by decide)
  apply crcRegion_chunk 100 721906663 (by omega) (by decide)
  apply crcRegion_chunk 100 39989415 (by omega) (by decide)
  apply crcRegion_chunk 100 1086325935 (by omega) (by decide)
  apply crcRegion_chunk 100 3295857386 (by omega) (by decide)
  apply crcRegion_chunk 100 4006958490 (by omega) (by decide)
  decide

/-- The CRC loop only reads the bytes of the region it runs over. -/
theorem crcRegion_congr (e f : Nat → Nat) : forall n i c,
    (forall j, i <= j -> j < i + n -> e j = f j) ->
    crcRegion e i c n = crcRegion f i c n := by
  intro n
  induction n with
  | zero => intro i c _; rfl
  | succ n ih =>
    intro i c h
    show crcRegion e (i + 1) (crcByteStep c (e i)) n = crcRegion f (i + 1) (crcByteStep c (f i)) n
    rw [h i (by omega) (by omega)]
    exact ih (i + 1) _ (fun j hj1 hj2 => h j (by omega) (by omega))

/-- The constructed valid store has the all-zero data region, hence the
same computed CRC. -/
theorem calculate_crc_validStore : calculate_crc validStore = 1030648314 := by
  unfold calculate_crc
  rw [crcRegion_congr validStore zeroStore 4091 5 4294967295 ?agree]
  case agree =>
    intro j hj1 _
    simp only [validStore, zeroStore]
    rw [if_neg (by omega), if_neg (by omega), if_neg (by omega), if_neg (by omega),
      if_neg (by omega)]
  exact calculate_crc_zeroStore

/-- The constructed valid store passes the boot-time CRC check. -/
theorem checkCRC_validStore : checkCRC validStore = true := by
  unfold checkCRC
  rw [calculate_crc_validStore]
  decide

/-- One byte of the reference CRC-32: two nibble-indexed lookups,
without the per-byte complement. -/
def refCrcByte (c b : Nat) : Nat :=
  crcNibbleStep (crcNibbleStep c b) (b >>> 4)

/-- Modelled from the spec: the standard reflected CRC-32
(polynomial 0xEDB88320, table-driven nibble-wise, initial value
0xFFFFFFFF, single final complement) of a byte list.  This is the
reference the spec says `calculate_crc` computes; it is checked against
the known value 0xCBF43926 on the standard test vector below. -/
def crc32_reference (bs : List Nat) : Nat :=
  (bs.foldl refCrcByte 0xFFFFFFFF) ^^^ 0xFFFFFFFF

theorem crc32_reference_check :
    crc32_reference [49, 50, 51, 52, 53, 54, 55, 56, 57] = 0xCBF43926 := by decide

/-- Reading from the all-zero store yields a list of zero bytes. -/
theorem readBytes_zeroStore : forall n base,
    readBytes zeroStore base n = List.replicate n 0 := by
  intro n
  induction n with
  | zero => intro base; rfl
  | succ n ih =>
    intro base
    show (0 : Nat) :: readBytes zeroStore (base + 1) n = _
    rw [ih (base + 1), List.replicate_succ]

/-- Evaluate a prefix chunk of the reference CRC-32 fold over a run of
zero bytes and continue on the rest. -/
theorem refFold_chunk {c n r : Nat} (m v : Nat) (hm : m <= n)
    (hv : (List.replicate m 0).foldl refCrcByte c = v)
    (hr : (List.replicate (n - m) 0).foldl refCrcByte v = r) :
    (List.replicate n 0).foldl refCrcByte c = r := by
  have hn : n = m + (n - m) := by omega
  rw [hn, List.replicate_add, List.foldl_append, hv, hr]

/-- Value of the reference CRC-32 running state over 4091 zero bytes. -/
theorem refFold_zero_4091 :
    (List.replicate 4091 0).foldl refCrcByte 4294967295 = 2065683270 := by
  apply refFold_chunk 100 1719089461 (by omega) (by decide)
  apply refFold_chunk 100 915298185 (by omega) (by decide)
  apply refFold_chunk 100 1254846509 (by omega) (by decide)
  apply refFold_chunk 100 3118330611 (by omega) (by decide)
  apply refFold_chunk 100 4252780165 (by omega) (by decide)
  apply refFold_chunk 100 2282905052 (by omega) (by decide)
  apply refFold_chunk 100 3042019226 (by omega) (by decide)
  apply refFold_chunk 100 2540723484 (by omega) (by decide)
  apply refFold_chunk 100 709378835 (by omega) (by decide)
  apply refFold_chunk 100 4193577087 (by omega) (by decide)
  apply refFold_chunk 100 1418223572 (by omega) (by decide)
  apply refFold_chunk 100 4088509846 (by omega) (by decide)
  apply refFold_chunk 100 4288418140 (by omega) (by decide)
  apply refFold_chunk 100 1800320891 (by omega) (by decide)
  apply refFold_chunk 100 2430309184 (by omega) (by decide)
  apply refFold_chunk 100 988709578 (by omega) (by decide)
  apply refFold_chunk 100 3586014756 (by omega) (by decide)
  apply refFold_chunk 100 1286002098 (by omega) (by decide)
  apply refFold_chunk 100 3753343686 (by omega) (by decide)
  apply refFold_chunk 100 4248177595 (by omega) (by decide)
  apply refFold_chunk 100 2812902204 (by omega) (by decide)
  apply refFold_chunk 100 3392218174 (by omega) (by decide)
  apply refFold_chunk 100 1852711120 (by omega) (by decide)
  apply refFold_chunk 100 1655983317 (by omega) (by decide)
  apply refFold_chunk 100 380269574 (by omega) (by decide)
  apply refFold_chunk 100 4173634750 (by omega) (by decide)
  apply refFold_chunk 100 3365762402 (by omega) (by decide)
  apply refFold_chunk 100 650396546 (by omega) (by decide)
  apply refFold_chunk 100 2479017047 (by omega) (by decide)
  apply refFold_chunk 100 628729074 (by omega) (by decide)
  apply refFold_chunk 100 3497668606 (by omega) (by decide)
  apply refFold_chunk 100 881092441 (by omega) (by decide)
  apply refFold_chunk 100 4051041605 (by omega) (by decide)
  apply refFold_chunk 100 2679224620 (by omega) (by decide)
  apply refFold_chunk 100 745713528 (by omega) (by decide)
  apply refFold_chunk 100 1755550084 (by omega) (by decide)
  apply refFold_chunk 100 4250145469 (by omega) (by decide)
  apply refFold_chunk 100 2941928092 (by omega) (by decide)
  apply refFold_chunk 100 661067722 (by omega) (by decide)
  apply refFold_chunk 100 3312741441 (by omega) (by decide)
  decide

/-! Facts about the nibble table, each checked by enumeration. -/

/-- Every table entry is a 32-bit value. -/
theorem crc_table_lt : forall k, k < 16 -> crc_table k < 2 ^ 32 := by decide

/-- The table is linear over GF(2): it commutes with xor of indices. -/
theorem crc_table_linear : forall i, i < 16 -> forall j, j < 16 ->
    crc_table (i ^^^ j) = crc_table i ^^^ crc_table j := by decide

/-- The top nibbles of the sixteen table entries are pairwise distinct. -/
theorem crc_table_top_inj : forall i, i < 16 -> forall j, j < 16 ->
    crc_table i >>> 28 = crc_table j >>> 28 -> i = j := by decide

/-- The only table entry below 16 is the one at index 0. -/
theorem crc_table_small : forall i, i < 16 -> crc_table i < 16 -> i = 0 := by decide

/-! Arithmetic helpers for 32-bit values represented as `Nat`. -/

theorem shiftRight_xor (a b k : Nat) : (a ^^^ b) >>> k = (a >>> k) ^^^ (b >>> k) := by
  apply Nat.eq_of_testBit_eq
  intro i
  simp [Nat.testBit_shiftRight, Nat.testBit_xor]

theorem and15_xor (a b : Nat) : (a ^^^ b) &&& 15 = (a &&& 15) ^^^ (b &&& 15) :=
  Nat.and_xor_distrib_right

theorem and15_lt (a : Nat) : a &&& 15 < 16 :=
  Nat.lt_succ_of_le Nat.and_le_right

theorem and15_eq_self {a : Nat} (h : a < 16) : a &&& 15 = a := by
  have h2 := Nat.and_pow_two_sub_one_eq_mod a 4
  norm_num at h2
  omega

theorem shiftRight32_eq_zero {c : Nat} (h : c < 2 ^ 32) : c >>> 32 = 0 := by
  have h2 := Nat.shiftRight_eq_div_pow c 32
  norm_num at h2 ⊢
  omega

theorem shiftRight4_shiftRight28 (c : Nat) : (c >>> 4) >>> 28 = c >>> 32 := by
  rw [← Nat.shiftRight_add]

theorem shiftRight4_lt_16 {b : Nat} (h : b < 256) : b >>> 4 < 16 := by
  have h2 := Nat.shiftRight_eq_div_pow b 4
  norm_num at h2
  omega

theorem lt16_of_shiftRight4_eq_zero {a : Nat} (h : a >>> 4 = 0) : a < 16 := by
  have h2 := Nat.shiftRight_eq_div_pow a 4
  norm_num at h2
  omega

theorem shiftRight4_and15 (c : Nat) : (c >>> 4) * 16 + (c &&& 15) = c := by
  have h1 := Nat.shiftRight_eq_div_pow c 4
  have h2 := Nat.and_pow_two_sub_one_eq_mod c 4
  norm_num at h1 h2
  omega

/-! Injectivity of the CRC update steps. -/

/-- A nibble update of a 32-bit accumulator stays 32-bit. -/
theorem crcNibbleStep_lt {c : Nat} (hc : c < 2 ^ 32) (x : Nat) :
    crcNibbleStep c x < 2 ^ 32 := by
  unfold crcNibbleStep
  apply Nat.xor_lt_two_pow (crc_table_lt _ (and15_lt _))
  have h2 := Nat.shiftRight_eq_div_pow c 4
  norm_num at h2 ⊢
  omega

/-- A byte update of a 32-bit accumulator stays 32-bit. -/
theorem crcByteStep_lt {c : Nat} (hc : c < 2 ^ 32) (b : Nat) :
    crcByteStep c b < 2 ^ 32 := by
  unfold crcByteStep
  exact Nat.xor_lt_two_pow (crcNibbleStep_lt (crcNibbleStep_lt hc b) (b >>> 4)) (by norm_num)

/-- Decompose an equality of nibble updates: the top nibble of the
result determines the table index (the entries have pairwise distinct
top nibbles), after which the table terms cancel. -/
theorem crcNibbleStep_eq_parts {c cq x xq : Nat} (hc : c < 2 ^ 32) (hcq : cq < 2 ^ 32)
    (h : crcNibbleStep c x = crcNibbleStep cq xq) :
    (c ^^^ x) &&& 15 = (cq ^^^ xq) &&& 15 ∧ c >>> 4 = cq >>> 4 := by
  unfold crcNibbleStep at h
  have hsh := congrArg (fun t => t >>> 28) h
  simp only [shiftRight_xor] at hsh
  rw [shiftRight4_shiftRight28, shiftRight4_shiftRight28, shiftRight32_eq_zero hc,
    shiftRight32_eq_zero hcq, Nat.xor_zero, Nat.xor_zero] at hsh
  have hk := crc_table_top_inj _ (and15_lt _) _ (and15_lt _) hsh
  refine ⟨hk, ?_⟩
  rw [hk] at h
  exact Nat.xor_right_inj.mp h

/-- The nibble update is injective in the accumulator. -/
theorem crcNibbleStep_inj_c {c cq x : Nat} (hc : c < 2 ^ 32) (hcq : cq < 2 ^ 32)
    (h : crcNibbleStep c x = crcNibbleStep cq x) : c = cq := by
  obtain ⟨hk, hhigh⟩ := crcNibbleStep_eq_parts hc hcq h
  rw [and15_xor, and15_xor] at hk
  have hlow : c &&& 15 = cq &&& 15 := Nat.xor_left_inj.mp hk
  rw [← shiftRight4_and15 c, ← shiftRight4_and15 cq, hhigh, hlow]

/-- The byte update is injective in the accumulator. -/
theorem crcByteStep_inj_c {c cq b : Nat} (hc : c < 2 ^ 32) (hcq : cq < 2 ^ 32)
    (h : crcByteStep c b = crcByteStep cq b) : c = cq := by
  unfold crcByteStep at h
  have h2 := Nat.xor_left_inj.mp h
  exact crcNibbleStep_inj_c hc hcq
    (crcNibbleStep_inj_c (crcNibbleStep_lt hc b) (crcNibbleStep_lt hcq b) h2)

/-- The byte update is injective in the byte: two different bytes fed
into the same 32-bit accumulator yield different results. -/
theorem crcByteStep_inj_b {c b bq : Nat} (hc : c < 2 ^ 32) (hb : b < 256) (hbq : bq < 256)
    (h : crcByteStep c b = crcByteStep c bq) : b = bq := by
  unfold crcByteStep at h
  have h0 := Nat.xor_left_inj.mp h
  have hc1 : crcNibbleStep c b < 2 ^ 32 := crcNibbleStep_lt hc b
  have hc1q : crcNibbleStep c bq < 2 ^ 32 := crcNibbleStep_lt hc bq
  obtain ⟨hk, hhigh⟩ := crcNibbleStep_eq_parts hc1 hc1q h0
  -- the xor of the two inner accumulators is a table entry
  have hx : crcNibbleStep c b ^^^ crcNibbleStep c bq = crc_table ((b ^^^ bq) &&& 15) := by
    unfold crcNibbleStep
    have hrearrange : forall u v w : Nat, (u ^^^ w) ^^^ (v ^^^ w) = u ^^^ v := by
      intro u v w
      rw [Nat.xor_comm v w, ← Nat.xor_assoc, Nat.xor_assoc u w w, Nat.xor_self,
        Nat.xor_zero]
    rw [hrearrange]
    rw [← crc_table_linear _ (and15_lt _) _ (and15_lt _)]
    congr 1
    rw [and15_xor, and15_xor, and15_xor]
    have hrearrange2 : forall u v w : Nat, (u ^^^ w) ^^^ (u ^^^ v) = w ^^^ v := by
      intro u v w
      rw [Nat.xor_comm u w, Nat.xor_assoc, ← Nat.xor_assoc u u v, Nat.xor_self,
        Nat.zero_xor]
    rw [hrearrange2]
  -- that table entry is below 16, so it is the zero entry
  have hxz : (crcNibbleStep c b ^^^ crcNibbleStep c bq) >>> 4 = 0 := by
    rw [shiftRight_xor, hhigh, Nat.xor_self]
  have hlt := lt16_of_shiftRight4_eq_zero hxz
  rw [hx] at hlt
  have hidx : (b ^^^ bq) &&& 15 = 0 := crc_table_small _ (and15_lt _) hlt
  have hlow : b &&& 15 = bq &&& 15 := by
    rw [and15_xor] at hidx
    exact Nat.xor_eq_zero.mp hidx
  -- hence the inner accumulators are equal, and the outer indices give
  -- equality of the high nibbles of the two bytes
  have hc1eq : crcNibbleStep c b = crcNibbleStep c bq := by
    apply Nat.xor_eq_zero.mp
    rw [hx, hidx]
    rfl
  rw [hc1eq] at hk
  rw [and15_xor, and15_xor] at hk
  have hk2 : (b >>> 4) &&& 15 = (bq >>> 4) &&& 15 := Nat.xor_right_inj.mp hk
  rw [and15_eq_self (shiftRight4_lt_16 hb), and15_eq_self (shiftRight4_lt_16 hbq)] at hk2
  rw [← shiftRight4_and15 b, ← shiftRight4_and15 bq, hk2, hlow]

/-! The CRC of the region detects any single-byte change. -/

/-- The CRC loop keeps the accumulator 32-bit. -/
theorem crcRegion_lt (e : Nat → Nat) : forall n i c, c < 2 ^ 32 ->
    crcRegion e i c n < 2 ^ 32 := by
  intro n
  induction n with
  | zero => intro i c hc; exact hc
  | succ n ih => intro i c hc; exact ih (i + 1) _ (crcByteStep_lt hc (e i))

/-- The CRC loop is injective in the starting accumulator. -/
theorem crcRegion_inj_c (e : Nat → Nat) : forall n i c cq, c < 2 ^ 32 -> cq < 2 ^ 32 ->
    crcRegion e i c n = crcRegion e i cq n -> c = cq := by
  intro n
  induction n with
  | zero => intro i c cq _ _ h; exact h
  | succ n ih =>
    intro i c cq hc hcq h
    exact crcByteStep_inj_c hc hcq
      (ih (i + 1) _ _ (crcByteStep_lt hc (e i)) (crcByteStep_lt hcq (e i)) h)

/-- Changing the byte at position `p` inside the range of the CRC loop
changes the loop result: the loop detects every single-byte change of
the bytes it covers. -/
theorem crcRegion_write_ne (e : Nat → Nat) (p v : Nat) (hep : e p < 256) (hv : v < 256)
    (hne : v ≠ e p) : forall n i c, i <= p -> p < i + n -> c < 2 ^ 32 ->
    crcRegion (writeEEPROM e p v) i c n ≠ crcRegion e i c n := by
  intro n
  induction n with
  | zero => intro i c h1 h2 _; omega
  | succ n ih =>
    intro i c hip hpn hc
    show crcRegion (writeEEPROM e p v) (i + 1) (crcByteStep c (writeEEPROM e p v i)) n
        ≠ crcRegion e (i + 1) (crcByteStep c (e i)) n
    by_cases hcase : i = p
    · -- the changed byte is consumed at this step
      subst hcase
      have hw : writeEEPROM e i v i = v := by
        unfold writeEEPROM
        rw [if_pos rfl, Nat.mod_eq_of_lt hv]
      rw [hw]
      have hstep : crcByteStep c v ≠ crcByteStep c (e i) :=
        fun hstep => hne (crcByteStep_inj_b hc hv hep hstep)
      have hcongr : crcRegion (writeEEPROM e i v) (i + 1) (crcByteStep c v) n
          = crcRegion e (i + 1) (crcByteStep c v) n := by
        apply crcRegion_congr
        intro j hj1 _
        unfold writeEEPROM
        rw [if_neg (by omega)]
      rw [hcongr]
      intro hfinal
      exact hstep (crcRegion_inj_c e n (i + 1) _ _ (crcByteStep_lt hc v)
        (crcByteStep_lt hc (e i)) hfinal)
    · -- the changed byte lies strictly further right
      have hw : writeEEPROM e p v i = e i := by
        unfold writeEEPROM
        rw [if_neg hcase]
      rw [hw]
      exact ih (i + 1) _ (by omega) (by omega) (crcByteStep_lt hc (e i))

/-! Claim C3: single-byte tamper detection at boot. -/

/-- The constructed valid store holds byte values. -/
theorem validStore_bytes : forall i, validStore i < 256 := by
  intro i
  simp only [validStore]
  repeat' split
  all_goals norm_num

/-- Claim C3 (amended): for every store content that currently passes
both boot-time checks, changing any single byte other than the four
stored-checksum bytes (addresses 1..4) — a data byte, which breaks the
CRC comparison, or the schema-version byte at address 0, which breaks
the version comparison — makes `setupEEPROM` report
`wasReinitialized = true`. -/
theorem C3_single_byte_tamper_reinit (e : Nat → Nat) (p v : Nat)
    (hbytes : forall i, e i < 256) (hcrc : checkCRC e = true)
    (hver : checkEEPROMVersionNumber e = true) (hp : p < 4096)
    (hpnot : ¬(1 <= p ∧ p <= 4)) (hv : v < 256) (hne : v ≠ e p) :
    setupEEPROMReinitializes (writeEEPROM e p v) = true := by
  unfold setupEEPROMReinitializes
  by_cases hp0 : p = 0
  · -- version byte at address 0: breaks the version comparison
    subst hp0
    have he0 : e 0 = 1 := by
      unfold checkEEPROMVersionNumber at hver
      exact eq_of_beq hver
    have hver2 : checkEEPROMVersionNumber (writeEEPROM e 0 v) = false := by
      unfold checkEEPROMVersionNumber writeEEPROM
      rw [if_pos rfl, Nat.mod_eq_of_lt hv]
      rw [he0] at hne
      exact beq_eq_false_iff_ne.mpr hne
    rw [hver2]
    simp
  · -- data byte at address 5 or later: breaks the CRC comparison
    have hp5 : 5 <= p := by omega
    have hstored : calculate_crc e = retrieveCRC e := by
      unfold checkCRC at hcrc
      exact eq_of_beq hcrc
    have hretr : retrieveCRC (writeEEPROM e p v) = retrieveCRC e := by
      unfold retrieveCRC writeEEPROM
      rw [if_neg (by omega), if_neg (by omega), if_neg (by omega), if_neg (by omega)]
    have hcalc : calculate_crc (writeEEPROM e p v) ≠ calculate_crc e := by
      unfold calculate_crc
      exact crcRegion_write_ne e p v (hbytes p) hv hne 4091 5 0xFFFFFFFF hp5 (by omega)
        (by norm_num)
    have hcrc2 : checkCRC (writeEEPROM e p v) = false := by
      unfold checkCRC
      rw [hretr, ← hstored]
      exact beq_eq_false_iff_ne.mpr hcalc
    rw [hcrc2]
    simp

/-- Claim C3, literal reading, refuted: the universally quantified form
over arbitrary store contents fails.  The store obtained from the valid
store by corrupting data byte 5 to 7 is a store content; changing that
same single non-checksum byte back to 0 produces the valid store again,
and `setupEEPROM` then reports no reinitialization. -/
theorem C3_tamper_counterexample :
    (writeEEPROM validStore 5 7) 5 = 7 ∧ (0 : Nat) ≠ 7 ∧ ¬(1 <= 5 ∧ 5 <= 4) ∧
    setupEEPROMReinitializes (writeEEPROM (writeEEPROM validStore 5 7) 5 0) = false := by
  have hfun : writeEEPROM (writeEEPROM validStore 5 7) 5 0 = validStore := by
    funext i
    unfold writeEEPROM
    by_cases h : i = 5
    · subst h
      simp [validStore]
    · rw [if_neg h, if_neg h]
  refine ⟨by decide, by decide, by decide, ?_⟩
  rw [hfun]
  unfold setupEEPROMReinitializes
  rw [checkCRC_validStore]
  decide

/-- Witness for C3: tamper the data byte at address 5 of a concrete
valid store; the boot-time check reinitializes. -/
theorem C3_single_byte_tamper_reinit_witness :
    setupEEPROMReinitializes (writeEEPROM validStore 5 7) = true :=
  C3_single_byte_tamper_reinit validStore 5 7 validStore_bytes checkCRC_validStore
    (by decide) (by decide) (by decide) (by decide) (by decide)

/-! Claim C4: what algorithm the checksum function actually computes. -/

/-- The CRC loop equals a left fold of the per-byte update over the
bytes read from the region. -/
theorem crcRegion_eq_foldl (e : Nat → Nat) : forall n i c,
    crcRegion e i c n = (readBytes e i n).foldl crcByteStep c := by
  intro n
  induction n with
  | zero => intro i c; rfl
  | succ n ih =>
    intro i c
    exact ih (i + 1) (crcByteStep c (e i))

/-- The algorithm `calculate_crc` actually implements, at the level of
byte lists: the nibble-table fold that bitwise-complements the running
value after every byte (the Arduino EEPROMCrc variant), started from
0xFFFFFFFF, with no final complement. -/
def crcArduinoVariant (bs : List Nat) : Nat :=
  bs.foldl crcByteStep 0xFFFFFFFF

/-- Claim C4 (amended): for every store content, the checksum function
computes the per-byte-complement nibble-table variant (Arduino
EEPROMCrc) over the bytes from offset 5 to the end of the region — not
the standard reflected CRC-32 of those bytes. -/
theorem C4_crc_variant (e : Nat → Nat) :
    calculate_crc e = crcArduinoVariant (readBytes e 5 4091) :=
  crcRegion_eq_foldl e 4091 5 0xFFFFFFFF

/-- Unfolding equation for the reference CRC-32, stated with a list
variable so that instantiating it at a long list never makes the kernel
evaluate the fold. -/
theorem crc32_reference_eq (bs : List Nat) :
    crc32_reference bs = bs.foldl refCrcByte 4294967295 ^^^ 4294967295 := rfl

/-- Claim C4, as stated, refuted: on the all-zero store the checksum
function does not equal the reference CRC-32 of the region bytes. -/
theorem C4_not_reference_crc32 :
    calculate_crc zeroStore ≠ crc32_reference (readBytes zeroStore 5 4091) := by
  intro h
  have h1 : crc32_reference (readBytes zeroStore 5 4091)
      = crc32_reference (List.replicate 4091 0) :=
    congrArg crc32_reference (readBytes_zeroStore 4091 5)
  have h2 : crc32_reference (List.replicate 4091 0)
      = (List.replicate 4091 0).foldl refCrcByte 4294967295 ^^^ 4294967295 :=
    crc32_reference_eq (List.replicate 4091 0)
  have h3 : (List.replicate 4091 0).foldl refCrcByte 4294967295 ^^^ 4294967295
      = 2065683270 ^^^ 4294967295 :=
    congrArg (fun t => t ^^^ 4294967295) refFold_zero_4091
  have h5 : (1030648314 : Nat) = 2065683270 ^^^ 4294967295 :=
    (calculate_crc_zeroStore.symm.trans h).trans ((h1.trans h2).trans h3)
  exact absurd h5 (by decide)

/-! Claim C5: every durable write path leaves a matching stored CRC. -/

/-- Decompose a 32-bit value into its four little-endian bytes. -/
theorem byte_decomp {x : Nat} (h : x < 2 ^ 32) :
    x % 256 + (x >>> 8) % 256 * 256 + (x >>> 16) % 256 * 65536
      + (x >>> 24) % 256 * 16777216 = x := by
  have e8 := Nat.shiftRight_eq_div_pow x 8
  have e16 := Nat.shiftRight_eq_div_pow x 16
  have e24 := Nat.shiftRight_eq_div_pow x 24
  norm_num at e8 e16 e24 h
  omega

/-- Writing the checksum bytes only touches addresses 1..4, which the
CRC loop does not read, so the computed CRC is unchanged. -/
theorem calculate_crc_storeCRCBytes (e : Nat → Nat) (crc : Nat) :
    calculate_crc (storeCRCBytes e crc) = calculate_crc e := by
  unfold calculate_crc
  apply crcRegion_congr
  intro j hj1 _
  simp only [storeCRCBytes, writeEEPROM]
  rw [if_neg (by omega), if_neg (by omega), if_neg (by omega), if_neg (by omega)]

/-- Reading the checksum field back after writing the four bytes of a
32-bit value yields that value. -/
theorem retrieveCRC_storeCRCBytes (e : Nat → Nat) {crc : Nat} (h : crc < 2 ^ 32) :
    retrieveCRC (storeCRCBytes e crc) = crc := by
  have h1 : storeCRCBytes e crc 1 = crc % 256 := rfl
  have h2 : storeCRCBytes e crc 2 = (crc >>> 8) % 256 := rfl
  have h3 : storeCRCBytes e crc 3 = (crc >>> 16) % 256 := rfl
  have h4 : storeCRCBytes e crc 4 = (crc >>> 24) % 256 := rfl
  unfold retrieveCRC
  rw [h1, h2, h3, h4]
  exact byte_decomp h

/-- The computed CRC is always a 32-bit value. -/
theorem calculate_crc_lt (e : Nat → Nat) : calculate_crc e < 2 ^ 32 :=
  crcRegion_lt e 4091 5 0xFFFFFFFF (by norm_num)

/-- The stored checksum matches the computed checksum after `storeCRC`. -/
theorem storeCRC_consistent (e : Nat → Nat) :
    retrieveCRC (storeCRC e) = calculate_crc (storeCRC e) := by
  unfold storeCRC
  rw [retrieveCRC_storeCRCBytes e (calculate_crc_lt e), calculate_crc_storeCRCBytes]

/-- Claim C5: after each durable write path completes — saving the MQTT
configuration, saving the OTA password, or the full reinitialization —
the checksum stored in the checksum field equals the checksum computed
over the rest of the region, because each path runs `storeCRC` after
its field writes and before its commit. -/
theorem C5_checksum_invariant (e : Nat → Nat) (server pw : List Nat) (configured : Bool)
    (junk : Nat → Nat) :
    retrieveCRC (saveMQTTConfigurationToEEPROM e server configured junk)
      = calculate_crc (saveMQTTConfigurationToEEPROM e server configured junk) ∧
    retrieveCRC (saveOtaPasswordToEEPROM e pw junk)
      = calculate_crc (saveOtaPasswordToEEPROM e pw junk) ∧
    retrieveCRC (initEEPROM e pw junk) = calculate_crc (initEEPROM e pw junk) :=
  ⟨storeCRC_consistent _, storeCRC_consistent _, storeCRC_consistent _⟩

/-! Device model: relay, button gesture detection, MQTT coordination.

Arduino `String` form fields and server names are byte lists; the MQTT
payloads "1"/"0" are Lean strings.  `millis()` is sampled once per tick
as `now`; 32-bit wraparound of `millis() - start` is modelled by
`sub32`.  GPIO writes (`digitalWrite`) have no further observable state
beyond the tracked flags. -/

/-- Gesture classified at a button release in the factory-reset-only
profile: a short press, or the factory-reset hold. -/
inductive Gesture
  | shortPress
  | factoryReset
deriving DecidableEq

/-- Global mutable state of the firmware relevant to the core: button
gesture tracking, relay and LED state, deferred-action request flags,
MQTT configuration, the EEPROM buffer, and observation fields
(`reinitCount` counts runs of `initEEPROM`, `publishAttempts` counts
calls of `mqttPublish`, `published` records payloads actually handed to
the connected transport). -/
structure DeviceState where
  buttonLastPressed : Bool
  timeSincebuttonPressed : Nat
  selectionState : Nat
  stateRelayConnected : Bool
  stateLEDOn : Bool
  userActionFeedbackRequest : Bool
  factoryResetRequested : Bool
  wifiResetRequested : Bool
  wpsRequested : Bool
  wifiCredentialChangeRequested : Bool
  stateWiFiConfigured : Bool
  mqttConnected : Bool
  rebootRequested : Bool
  chipId : List Nat
  arduinoOtaPassword : List Nat
  mqttServer : List Nat
  stateMQTTConfigured : Bool
  mqttBoundServer : List Nat
  eeprom : Nat → Nat
  reinitCount : Nat
  publishAttempts : Nat
  published : List String

/-- Model of `setUserActionFeedbackRequest`. -/
def setUserActionFeedbackRequest (s : DeviceState) : DeviceState :=
  { s with userActionFeedbackRequest := true }

/-- Model of `setFactoryResetRequested`. -/
def setFactoryResetRequested (s : DeviceState) : DeviceState :=
  { s with factoryResetRequested := true }

/-- Model of `setWifiResetRequested` (WPS variant). -/
def setWifiResetRequested (s : DeviceState) : DeviceState :=
  { s with wifiResetRequested := true }

/-- Model of `setWPSRequest` (WPS variant). -/
def setWPSRequest (s : DeviceState) : DeviceState :=
  { s with wpsRequested := true }

/-- Model of `mqttPublish`: a no-op on the wire unless the transport is
connected, in which case the relay state is published as "1" or "0"
(`NUMERIC_RESPONSE` is defined), on the outgoing topic.  Every call
counts as one publish attempt; nothing is queued or retried. -/
def mqttPublish (s : DeviceState) : DeviceState :=
  { s with
    publishAttempts := s.publishAttempts + 1,
    published :=
      if s.mqttConnected then
        s.published ++ [if s.stateRelayConnected then "1" else "0"]
      else s.published }

/-- Model of `connectRelay`: set the in-memory flag, drive the GPIO,
and publish the new state (`OUTPUT_RELAY_STATE_ON_GREEN_STATUS_LED` is
not defined in real builds, so the LED is untouched). -/
def connectRelay (s : DeviceState) : DeviceState :=
  mqttPublish { s with stateRelayConnected := true }

/-- Model of `disconnectRelay`. -/
def disconnectRelay (s : DeviceState) : DeviceState :=
  mqttPublish { s with stateRelayConnected := false }

/-- Model of `toggleRelay`. -/
def toggleRelay (s : DeviceState) : DeviceState :=
  if s.stateRelayConnected then disconnectRelay s else connectRelay s

/-- Unsigned 32-bit subtraction `a - b`, as computed by
`millis() - timeSincebuttonPressed` on `unsigned long`. -/
def sub32 (a b : Nat) : Nat :=
  (a + 2 ^ 32 - b % 2 ^ 32) % 2 ^ 32

/-- Model of `pressHandler` (factory-reset-only profile): the tick
callback.  Returns the new state, the gesture emitted at a release (the
release branch runs `toggleRelay` or `setFactoryResetRequested`
directly; the returned `Option Gesture` only observes which), and the
number of `setUserActionFeedbackRequest` calls made this tick. -/
def pressHandler (s : DeviceState) (buttonPressed : Bool) (now : Nat) :
    DeviceState × Option Gesture × Nat :=
  let t0 := if s.buttonLastPressed = false ∧ buttonPressed = true then now
    else s.timeSincebuttonPressed
  let pressedStep :=
    if s.buttonLastPressed = true ∧ buttonPressed = true then
      let pastTime := sub32 now t0
      if 15000 < pastTime ∧ s.selectionState < 15000 then
        ({ setUserActionFeedbackRequest s with selectionState := 15000 }, 1)
      else (s, 0)
    else (s, 0)
  let s1 := pressedStep.1
  let fb := pressedStep.2
  let releaseStep :=
    if s.buttonLastPressed = true ∧ buttonPressed = false then
      let pastTime := sub32 now t0
      if 15000 < pastTime then
        ({ setFactoryResetRequested s1 with selectionState := 0 }, some Gesture.factoryReset)
      else ({ toggleRelay s1 with selectionState := 0 }, some Gesture.shortPress)
    else (s1, none)
  let s2 := releaseStep.1
  let ev := releaseStep.2
  ({ s2 with buttonLastPressed := buttonPressed, timeSincebuttonPressed := t0 }, ev, fb)

/-- Model of the WPS variant `pressHandler` (three tiers: WPS pairing at
3000 ms, WiFi data reset at 10000 ms, factory reset at 15000 ms).
Returns the new state and the number of `setUserActionFeedbackRequest`
calls made this tick.  The WPS crossing and the WPS release action run
only when WiFi is not yet configured. -/
def pressHandler3 (s : DeviceState) (buttonPressed : Bool) (now : Nat) :
    DeviceState × Nat :=
  let t0 := if s.buttonLastPressed = false ∧ buttonPressed = true then now
    else s.timeSincebuttonPressed
  let pressedStep :=
    if s.buttonLastPressed = true ∧ buttonPressed = true then
      let pastTime := sub32 now t0
      let step1 :=
        if 3000 < pastTime ∧ s.selectionState < 3000 then
          if s.stateWiFiConfigured = false then
            ({ setUserActionFeedbackRequest s with selectionState := 3000 }, 1)
          else ({ s with selectionState := 3000 }, 0)
        else (s, 0)
      let step2 :=
        if 10000 < pastTime ∧ step1.1.selectionState < 10000 then
          ({ setUserActionFeedbackRequest step1.1 with selectionState := 10000 }, step1.2 + 1)
        else step1
      let step3 :=
        if 15000 < pastTime ∧ step2.1.selectionState < 15000 then
          ({ setUserActionFeedbackRequest step2.1 with selectionState := 15000 }, step2.2 + 1)
        else step2
      step3
    else (s, 0)
  let s1 := pressedStep.1
  let fb := pressedStep.2
  let s2 :=
    if s.buttonLastPressed = true ∧ buttonPressed = false then
      let pastTime := sub32 now t0
      let sr :=
        if 15000 < pastTime then setFactoryResetRequested s1
        else if 10000 < pastTime then setWifiResetRequested s1
        else if 3000 < pastTime then
          if s.stateWiFiConfigured = false then setWPSRequest s1 else s1
        else toggleRelay s1
      { sr with selectionState := 0 }
    else s1
  ({ s2 with buttonLastPressed := buttonPressed, timeSincebuttonPressed := t0 }, fb)

/-- Run the tick callback over a list of `(millis, buttonPressed)`
samples, collecting the emitted gesture events in order. -/
def runTrace (s : DeviceState) : List (Nat × Bool) → DeviceState × List Gesture
  | [] => (s, [])
  | (now, pressed) :: rest =>
    let step := pressHandler s pressed now
    let cont := runTrace step.1 rest
    (cont.1, step.2.1.toList ++ cont.2)

/-! Web settings handler and MQTT configuration. -/

/-- Byte list of the form value "on". -/
def strOn : List Nat := [111, 110]

/-- Byte list of the form value "off". -/
def strOff : List Nat := [111, 102, 102]

/-- Model of `isNotWhitelisted`: accept ASCII letters (97..122 and
65..90), digits (48..57), hyphen 45, dot 46, colon 58 and brackets 91
and 93; everything else is not whitelisted. -/
def isNotWhitelisted (c : Nat) : Bool :=
  if 97 <= c ∧ c <= 122 then false
  else if 65 <= c ∧ c <= 90 then false
  else if 48 <= c ∧ c <= 57 then false
  else if c = 45 ∨ c = 46 ∨ c = 58 ∨ c = 91 ∨ c = 93 then false
  else true

/-- Model of `mqttServerValid`: the length must be below the 256-byte
slot size and every character must be whitelisted. -/
def mqttServerValid (mqttServer : List Nat) : Bool :=
  if 256 <= mqttServer.length then false
  else !(mqttServer.any fun c => isNotWhitelisted c)

/-- Model of `setMQTTServer`. -/
def setMQTTServer (s : DeviceState) (input : List Nat) : DeviceState :=
  { s with mqttServer := input }

/-- Model of `setStateMQTTConfigured`. -/
def setStateMQTTConfigured (s : DeviceState) (input : Bool) : DeviceState :=
  { s with stateMQTTConfigured := input }

/-- Model of `configureMQTT`: disconnect the client, rebind it to the
current `mqttServer`, and reinstall the message callback.  The binding
is observed as the server name the transport is bound to. -/
def configureMQTT (s : DeviceState) : DeviceState :=
  { s with mqttBoundServer := s.mqttServer }

/-- Result of one `/mqtt.html` request: the new device state, the
failure message rendered back to the user, and whether the handler
saved to EEPROM and reconfigured the transport. -/
structure MqttHtmlResult where
  state : DeviceState
  failureMsg : String
  savedToEEPROM : Bool
  configuredMQTT : Bool

/-- Parsing of the `mqttState` form field inside the `/mqtt.html`
handler: "on" enables, "off" disables, anything else keeps the old
value. -/
def parseMqttState (mqttState : List Nat) (old : Bool) : Bool :=
  if mqttState = strOn then true
  else if mqttState = strOff then false
  else old

/-- Model of the `/mqtt.html` request handler in `configureWebServer`:
parse the `mqttState` field ("on"/"off"/absent), validate a non-empty
`mqttserver` field (an empty one means "use the stored server"), and
persist plus reconfigure the transport whenever the resulting pair
differs from the current in-memory configuration. -/
def mqttHtmlHandler (s : DeviceState) (mqttState mqttserver : List Nat)
    (junk : Nat → Nat) : MqttHtmlResult :=
  let localStateMQTTConfigured := parseMqttState mqttState s.stateMQTTConfigured
  let serverAndMsg :=
    if mqttserver ≠ [] then
      if mqttServerValid mqttserver then
        ((mqttserver, "Input accepted.") : List Nat × String)
      else ((mqttserver, "Input rejected, due to XSS mitigation.") : List Nat × String)
    else ((s.mqttServer, "") : List Nat × String)
  let localMqttServer := serverAndMsg.1
  let failureMsg := serverAndMsg.2
  if localMqttServer ≠ s.mqttServer ∨ localStateMQTTConfigured ≠ s.stateMQTTConfigured then
    let s1 := setMQTTServer s localMqttServer
    let s2 := setStateMQTTConfigured s1 localStateMQTTConfigured
    let s3 := { s2 with
      eeprom := saveMQTTConfigurationToEEPROM s2.eeprom s2.mqttServer
        s2.stateMQTTConfigured junk }
    let s4 := configureMQTT s3
    { state := s4, failureMsg := failureMsg, savedToEEPROM := true, configuredMQTT := true }
  else
    { state := s, failureMsg := failureMsg, savedToEEPROM := false, configuredMQTT := false }

/-! Main loop: deferred-request execution. -/

/-- Model of `feedbackQuickBlink`: four LED toggles (which restore the
LED to its prior state) separated by quarter-second delays, then the
feedback request is cleared. -/
def feedbackQuickBlink (s : DeviceState) : DeviceState :=
  { s with userActionFeedbackRequest := false }

/-- Model of `changeWiFiCredentials`: the WiFi stack is external; the
observable core effect is the reboot it triggers. -/
def changeWiFiCredentials (s : DeviceState) : DeviceState :=
  { s with rebootRequested := true }

/-- Model of `getDefaultOtaPassword`: "ArduinoOTA" followed by the chip
identifier digits. -/
def getDefaultOtaPassword (chipId : List Nat) : List Nat :=
  [65, 114, 100, 117, 105, 110, 111, 79, 84, 65] ++ chipId

/-- Model of `reboot`. -/
def reboot (s : DeviceState) : DeviceState :=
  { s with rebootRequested := true }

/-- Model of `performFactoryReset`: reset the WiFi settings (external),
clear the in-memory MQTT configuration, run the destructive
`initEEPROM` (counted by `reinitCount`), and reboot. -/
def performFactoryReset (s : DeviceState) (junk : Nat → Nat) : DeviceState :=
  let s1 := setMQTTServer s []
  let s2 := setStateMQTTConfigured s1 false
  let s3 := { s2 with
    arduinoOtaPassword := getDefaultOtaPassword s2.chipId,
    eeprom := initEEPROM s2.eeprom (getDefaultOtaPassword s2.chipId) junk,
    reinitCount := s2.reinitCount + 1 }
  reboot s3

/-- Model of the deferred-request phase of `loop`: execute the feedback
blink, the WiFi credential change and the factory reset if their flags
are set.  The remainder of `loop` (OTA handling, serving HTTP, MQTT
connect/loop) delegates to external collaborators and request handlers
modelled separately; none of it touches the persistent store from the
loop body itself. -/
def loopStep (s : DeviceState) (junk : Nat → Nat) : DeviceState :=
  let s1 := if s.userActionFeedbackRequest then feedbackQuickBlink s else s
  let s2 := if s1.wifiCredentialChangeRequested then changeWiFiCredentials s1 else s1
  let s3 := if s2.factoryResetRequested then performFactoryReset s2 junk else s2
  s3

/-! Concrete states used by counterexamples and witnesses. -/

/-- Boot-time device state: nothing pressed, relay disconnected, no
requests pending, empty configuration, all-zero store. -/
def initialDevice : DeviceState :=
  { buttonLastPressed := false, timeSincebuttonPressed := 0, selectionState := 0,
    stateRelayConnected := false, stateLEDOn := false,
    userActionFeedbackRequest := false, factoryResetRequested := false,
    wifiResetRequested := false, wpsRequested := false,
    wifiCredentialChangeRequested := false, stateWiFiConfigured := false,
    mqttConnected := false, rebootRequested := false,
    chipId := [], arduinoOtaPassword := [], mqttServer := [],
    stateMQTTConfigured := false, mqttBoundServer := [],
    eeprom := zeroStore, reinitCount := 0, publishAttempts := 0, published := [] }

/-- Byte list of the spec test vector "evil<script>". -/
def evilInput : List Nat := [101, 118, 105, 108, 60, 115, 99, 114, 105, 112, 116, 62]

/-! Claim C1: settings-change on an invalid address. -/

/-- Claim C1, evaluated at the failing input: submitting the invalid
address "evil<script>" with `mqttState=on` makes `mqttServerValid`
fail and the handler report "Input rejected, due to XSS mitigation." —
yet it installs the invalid address in memory, persists it to EEPROM
(byte 101 = the letter e lands at the first server-slot address 6),
and rebinds the MQTT transport to it.  The validation result is never
consulted by the persist-and-reconfigure step. -/
theorem C1_invalid_server_persisted :
    mqttServerValid evilInput = false ∧
    (mqttHtmlHandler initialDevice strOn evilInput zeroStore).failureMsg
      = "Input rejected, due to XSS mitigation." ∧
    (mqttHtmlHandler initialDevice strOn evilInput zeroStore).state.mqttServer = evilInput ∧
    (mqttHtmlHandler initialDevice strOn evilInput zeroStore).state.mqttBoundServer
      = evilInput ∧
    (mqttHtmlHandler initialDevice strOn evilInput zeroStore).savedToEEPROM = true ∧
    (mqttHtmlHandler initialDevice strOn evilInput zeroStore).state.eeprom 6 = 101 ∧
    initialDevice.eeprom 6 = 0 := by
  decide

/-! Claim C6: an empty submitted address means "no change requested". -/

/-- Claim C6: submitting the settings form with an empty server address
keeps the stored server address (it is never cleared), updates only the
enabled flag, reports no failure, and persists and reconfigures the
transport exactly when the flag actually differs — in which case the
saved server is still the current one. -/
theorem C6_empty_address_keeps_server (s : DeviceState) (mqttState : List Nat)
    (junk : Nat → Nat) :
    (mqttHtmlHandler s mqttState [] junk).state.mqttServer = s.mqttServer ∧
    (mqttHtmlHandler s mqttState [] junk).state.stateMQTTConfigured
      = parseMqttState mqttState s.stateMQTTConfigured ∧
    (mqttHtmlHandler s mqttState [] junk).failureMsg = "" ∧
    (mqttHtmlHandler s mqttState [] junk).savedToEEPROM
      = (parseMqttState mqttState s.stateMQTTConfigured != s.stateMQTTConfigured) ∧
    (mqttHtmlHandler s mqttState [] junk).configuredMQTT
      = (parseMqttState mqttState s.stateMQTTConfigured != s.stateMQTTConfigured) ∧
    (mqttHtmlHandler s mqttState [] junk).state.eeprom
      = (if parseMqttState mqttState s.stateMQTTConfigured = s.stateMQTTConfigured
         then s.eeprom
         else saveMQTTConfigurationToEEPROM s.eeprom s.mqttServer
           (parseMqttState mqttState s.stateMQTTConfigured) junk) := by
  unfold mqttHtmlHandler setMQTTServer setStateMQTTConfigured configureMQTT
  by_cases hchg : parseMqttState mqttState s.stateMQTTConfigured = s.stateMQTTConfigured
  · simp [hchg]
  · simp [hchg]

/-! Claim C9: connecting the relay twice. -/

/-- Claim C9: calling `connectRelay` twice leaves the in-memory relay
flag true after each call; each call makes exactly one publish attempt
(the publish is not deduplicated); when the transport is not connected
the attempts put nothing on the wire, and nothing is ever queued — the
only wire effect is the immediate payload "1" per call when
connected. -/
theorem C9_connectRelay_publish (s : DeviceState) :
    (connectRelay s).stateRelayConnected = true ∧
    (connectRelay (connectRelay s)).stateRelayConnected = true ∧
    (connectRelay s).publishAttempts = s.publishAttempts + 1 ∧
    (connectRelay (connectRelay s)).publishAttempts = s.publishAttempts + 2 ∧
    (connectRelay s).published
      = (if s.mqttConnected then s.published ++ ["1"] else s.published) ∧
    (connectRelay (connectRelay s)).published
      = (if s.mqttConnected then s.published ++ ["1", "1"] else s.published) := by
  unfold connectRelay mqttPublish
  by_cases hc : s.mqttConnected
  · simp [hc]
  · simp [hc]

/-! Claim C8: the tick callback only defers the factory reset. -/

/-- Claim C8: the tick callback (`pressHandler`) never touches the
persistent store and never runs the destructive reinitialization (its
`reinitCount` is unchanged); detecting the factory-reset gesture only
sets the request flag.  The destructive reset runs exclusively in the
main loop: `loopStep` bumps `reinitCount` and rewrites the store with
`initEEPROM` exactly when it observes the flag set. -/
theorem C8_tick_defers_factory_reset (s : DeviceState) (pressed : Bool) (now : Nat)
    (junk : Nat → Nat) :
    (pressHandler s pressed now).1.eeprom = s.eeprom ∧
    (pressHandler s pressed now).1.reinitCount = s.reinitCount ∧
    (pressHandler s false now).1.factoryResetRequested
      = (if s.buttonLastPressed = true ∧ 15000 < sub32 now s.timeSincebuttonPressed
         then true else s.factoryResetRequested) ∧
    (loopStep s junk).reinitCount
      = (if s.factoryResetRequested then s.reinitCount + 1 else s.reinitCount) ∧
    (loopStep s junk).eeprom
      = (if s.factoryResetRequested
         then initEEPROM s.eeprom (getDefaultOtaPassword s.chipId) junk
         else s.eeprom) := by
  refine ⟨?_, ?_, ?_, ?_, ?_⟩
  · cases pressed <;> by_cases hL : s.buttonLastPressed = true <;>
      simp [pressHandler, toggleRelay, connectRelay, disconnectRelay, mqttPublish,
        setUserActionFeedbackRequest, setFactoryResetRequested, hL, Bool.not_eq_true] <;>
      split_ifs <;> simp
  · cases pressed <;> by_cases hL : s.buttonLastPressed = true <;>
      simp [pressHandler, toggleRelay, connectRelay, disconnectRelay, mqttPublish,
        setUserActionFeedbackRequest, setFactoryResetRequested, hL, Bool.not_eq_true] <;>
      split_ifs <;> simp
  · by_cases hL : s.buttonLastPressed = true <;>
      simp [pressHandler, toggleRelay, connectRelay, disconnectRelay, mqttPublish,
        setUserActionFeedbackRequest, setFactoryResetRequested, hL, Bool.not_eq_true] <;>
      split_ifs <;> simp_all
  · by_cases hF : s.factoryResetRequested = true <;>
      simp [loopStep, performFactoryReset, feedbackQuickBlink, changeWiFiCredentials,
        setMQTTServer, setStateMQTTConfigured, reboot, hF, Bool.not_eq_true] <;>
      split_ifs <;> simp_all
  · by_cases hF : s.factoryResetRequested = true <;>
      simp [loopStep, performFactoryReset, feedbackQuickBlink, changeWiFiCredentials,
        setMQTTServer, setStateMQTTConfigured, reboot, hF, Bool.not_eq_true] <;>
      split_ifs <;> simp_all

/-! Button-handler lemmas shared by the gesture claims. -/

/-- Unsigned wraparound subtraction agrees with plain subtraction when
no wraparound occurs. -/
theorem sub32_eq {a b : Nat} (hb : b < 2 ^ 32) (hba : b <= a) (hab : a - b < 2 ^ 32) :
    sub32 a b = a - b := by
  unfold sub32
  rw [Nat.mod_eq_of_lt hb]
  have h1 : a + 2 ^ 32 - b = (a - b) + 2 ^ 32 := by omega
  rw [h1, Nat.add_mod_right, Nat.mod_eq_of_lt hab]

/-- A tick that sees the press start only records the press time and
the pressed state. -/
theorem pressHandler_pressStart (s : DeviceState) (now : Nat)
    (h : s.buttonLastPressed = false) :
    pressHandler s true now
      = ({ s with buttonLastPressed := true, timeSincebuttonPressed := now }, none, 0) := by
  simp [pressHandler, h]

/-- A tick with the button still held emits no gesture and keeps the
press time and the relay state. -/
theorem pressHandler_held (s : DeviceState) (now : Nat)
    (h : s.buttonLastPressed = true) :
    (pressHandler s true now).2.1 = none ∧
    (pressHandler s true now).1.buttonLastPressed = true ∧
    (pressHandler s true now).1.timeSincebuttonPressed = s.timeSincebuttonPressed ∧
    (pressHandler s true now).1.stateRelayConnected = s.stateRelayConnected := by
  simp only [pressHandler, setUserActionFeedbackRequest, h]
  split_ifs <;> simp_all

/-- Toggling inverts the in-memory relay flag. -/
theorem toggleRelay_connected (s : DeviceState) :
    (toggleRelay s).stateRelayConnected = !s.stateRelayConnected := by
  unfold toggleRelay connectRelay disconnectRelay mqttPublish
  split_ifs <;> simp_all

/-- The release tick emits the gesture selected by the held duration:
factory reset above the threshold, otherwise a short press that toggles
the relay. -/
theorem pressHandler_release (s : DeviceState) (now : Nat)
    (h : s.buttonLastPressed = true) :
    (pressHandler s false now).2.1
      = some (if 15000 < sub32 now s.timeSincebuttonPressed then Gesture.factoryReset
              else Gesture.shortPress) ∧
    (pressHandler s false now).1.stateRelayConnected
      = (if 15000 < sub32 now s.timeSincebuttonPressed then s.stateRelayConnected
         else !s.stateRelayConnected) := by
  simp only [pressHandler, setFactoryResetRequested, h]
  split_ifs <;> simp_all [toggleRelay_connected]

/-- Held ticks between press and release emit no events and preserve
the press time and relay state. -/
theorem runTrace_heldMids (mids : List Nat) : forall s : DeviceState,
    s.buttonLastPressed = true ->
    (runTrace s (mids.map fun t => (t, true))).2 = [] ∧
    (runTrace s (mids.map fun t => (t, true))).1.buttonLastPressed = true ∧
    (runTrace s (mids.map fun t => (t, true))).1.timeSincebuttonPressed
      = s.timeSincebuttonPressed ∧
    (runTrace s (mids.map fun t => (t, true))).1.stateRelayConnected
      = s.stateRelayConnected := by
  induction mids with
  | nil => intro s h; exact ⟨rfl, h, rfl, rfl⟩
  | cons t mids ih =>
    intro s h
    obtain ⟨he, hb, ht, hr⟩ := pressHandler_held s t h
    obtain ⟨ih1, ih2, ih3, ih4⟩ := ih (pressHandler s true t).1 hb
    refine ⟨?_, ih2, ih3.trans ht, ih4.trans hr⟩
    simp only [List.map_cons, runTrace, he, Option.toList, ih1]
    rfl

/-- Running a trace splits along list concatenation. -/
theorem runTrace_append (l1 l2 : List (Nat × Bool)) : forall s,
    runTrace s (l1 ++ l2)
      = ((runTrace (runTrace s l1).1 l2).1,
         (runTrace s l1).2 ++ (runTrace (runTrace s l1).1 l2).2) := by
  induction l1 with
  | nil => intro s; simp [runTrace]
  | cons a l1 ih =>
    intro s
    obtain ⟨now, pressed⟩ := a
    simp only [List.cons_append, runTrace, List.append_eq]
    rw [ih]
    simp [List.append_assoc]

/-- A trace consisting of one release tick emits exactly the classified
gesture. -/
theorem runTrace_single_release (s : DeviceState) (t1 : Nat)
    (h : s.buttonLastPressed = true) :
    (runTrace s [(t1, false)]).2
      = [if 15000 < sub32 t1 s.timeSincebuttonPressed then Gesture.factoryReset
         else Gesture.shortPress] ∧
    (runTrace s [(t1, false)]).1.stateRelayConnected
      = (if 15000 < sub32 t1 s.timeSincebuttonPressed then s.stateRelayConnected
         else !s.stateRelayConnected) := by
  obtain ⟨h1, h2⟩ := pressHandler_release s t1 h
  simp only [runTrace, h1, h2]
  simp

/-- Number of threshold crossings of one held tick in the WPS variant,
as the claim counts them: a tier threshold strictly exceeded by the
held duration while the selection state had not yet reached that tier —
except that the firmware requests the pairing-tier feedback only when
WiFi is not yet configured. -/
def crossings3 (held sel : Nat) (wifiConfigured : Bool) : Nat :=
  (if 3000 < held ∧ sel < 3000 ∧ wifiConfigured = false then 1 else 0)
  + (if 10000 < held ∧ sel < 10000 then 1 else 0)
  + (if 15000 < held ∧ sel < 15000 then 1 else 0)

/-- Claim C7 (amended): while the button stays pressed the
highest-tier-reached variable `selectionState` never decreases; it is
reset to zero exactly at the release tick that ends a cycle (idle ticks
keep it); and each held tick requests the menu-selected feedback
exactly once per threshold crossing, except that the first (pairing)
tier requests no feedback when WiFi is already configured. -/
theorem C7_selection_monotone_feedback (s : DeviceState) (pressed : Bool) (now : Nat) :
    s.selectionState <= (pressHandler3 s true now).1.selectionState ∧
    (pressHandler3 s false now).1.selectionState
      = (if s.buttonLastPressed = true then 0 else s.selectionState) ∧
    (pressHandler3 s pressed now).2
      = (if s.buttonLastPressed = true ∧ pressed = true
         then crossings3 (sub32 now s.timeSincebuttonPressed) s.selectionState
           s.stateWiFiConfigured
         else 0) := by
  refine ⟨?_, ?_, ?_⟩
  · by_cases hL : s.buttonLastPressed = true <;>
      by_cases hW : s.stateWiFiConfigured = false <;>
      simp [pressHandler3, setUserActionFeedbackRequest, hL, hW, Bool.not_eq_true] <;>
      split_ifs <;> simp_all <;> omega
  · by_cases hL : s.buttonLastPressed = true <;>
      by_cases hW : s.stateWiFiConfigured = false <;>
      simp [pressHandler3, setUserActionFeedbackRequest, setFactoryResetRequested,
        setWifiResetRequested, setWPSRequest, toggleRelay, connectRelay, disconnectRelay,
        mqttPublish, hL, hW, Bool.not_eq_true] <;>
      split_ifs <;> simp_all
  · cases pressed <;> by_cases hL : s.buttonLastPressed = true <;>
      by_cases hW : s.stateWiFiConfigured = false <;>
      simp [pressHandler3, crossings3, setUserActionFeedbackRequest, hL, hW,
        Bool.not_eq_true] <;>
      split_ifs <;> simp_all <;> omega

/-- Modelled from the spec: "the gesture is the highest tier whose
threshold is less than or equal to the held duration" — with the single
15000 ms factory-reset tier of the main profile. -/
def specGestureClassify (held : Nat) : Gesture :=
  if 15000 <= held then Gesture.factoryReset else Gesture.shortPress

/-- Claim C2, boundary reading, refuted: a cycle held for exactly the
15000 ms threshold is classified short-press by the firmware (the
comparison is strict), while the claim - threshold less than or equal to
held - classifies it factory-reset. -/
theorem C2_boundary_counterexample :
    (runTrace initialDevice [(0, true), (15000, false)]).2 = [Gesture.shortPress] ∧
    specGestureClassify 15000 = Gesture.factoryReset ∧
    Gesture.shortPress ≠ Gesture.factoryReset := by decide
/-- Claim C2 (amended): one full press/release cycle emits exactly one
gesture event; it is factory-reset when the held duration strictly
exceeds the 15000 ms threshold and short-press otherwise, and the
short-press toggles the relay. -/
theorem C2_gesture_classification (s : DeviceState) (t0 t1 : Nat) (mids : List Nat)
    (hstart : s.buttonLastPressed = false) (h0 : t0 < 2 ^ 32) (h01 : t0 <= t1)
    (hwrap : t1 - t0 < 2 ^ 32) :
    (runTrace s ((t0, true) :: ((mids.map fun t => (t, true)) ++ [(t1, false)]))).2
      = [if 15000 < t1 - t0 then Gesture.factoryReset else Gesture.shortPress] ∧
    (runTrace s ((t0, true) :: ((mids.map fun t => (t, true))
        ++ [(t1, false)]))).1.stateRelayConnected
      = (if 15000 < t1 - t0 then s.stateRelayConnected else !s.stateRelayConnected) := by
  have hshape : (t0, true) :: ((mids.map fun t => (t, true)) ++ [(t1, false)])
      = (((t0, true) :: (mids.map fun t => (t, true))) ++ [(t1, false)]) := rfl
  rw [hshape, runTrace_append]
  have hps := pressHandler_pressStart s t0 hstart
  have hA : runTrace s ((t0, true) :: (mids.map fun t => (t, true)))
      = runTrace { s with buttonLastPressed := true, timeSincebuttonPressed := t0 }
          (mids.map fun t => (t, true)) := by
    simp only [runTrace, hps]
    simp
  rw [hA]
  obtain ⟨hm1, hm2, hm3, hm4⟩ := runTrace_heldMids mids
    { s with buttonLastPressed := true, timeSincebuttonPressed := t0 } rfl
  obtain ⟨hr1, hr2⟩ := runTrace_single_release _ t1 hm2
  have htime : (runTrace { s with buttonLastPressed := true, timeSincebuttonPressed := t0 }
      (mids.map fun t => (t, true))).1.timeSincebuttonPressed = t0 := hm3
  have hrel : (runTrace { s with buttonLastPressed := true, timeSincebuttonPressed := t0 }
      (mids.map fun t => (t, true))).1.stateRelayConnected = s.stateRelayConnected := hm4
  rw [htime] at hr1 hr2
  rw [hrel] at hr2
  rw [sub32_eq h0 h01 hwrap] at hr1 hr2
  refine ⟨?_, by simpa using hr2⟩
  rw [hm1, hr1]
  simp

/-- Witness for C2: a 16000 ms hold emits exactly one factory-reset
gesture. -/
theorem C2_gesture_classification_witness :
    (runTrace initialDevice ((0, true) :: ((([] : List Nat).map fun t => (t, true))
        ++ [(16000, false)]))).2 = [Gesture.factoryReset] := by
  have h := C2_gesture_classification initialDevice 0 16000 [] rfl (by norm_num)
    (by norm_num) (by norm_num)
  norm_num at h
  exact h.1

/-- Device state in the middle of a press with WiFi already configured,
used to exhibit the feedback exception of the pairing tier. -/
def c7state : DeviceState :=
  { initialDevice with buttonLastPressed := true, stateWiFiConfigured := true }

/-- Claim C7, as stated, refuted: in the WPS variant, when WiFi is
already configured, the tick that crosses the 3000 ms pairing threshold
sets `selectionState` to 3000 (a threshold crossing) yet performs no
feedback request at all. -/
theorem C7_wps_crossing_no_feedback :
    3000 < sub32 3100 c7state.timeSincebuttonPressed ∧ c7state.selectionState < 3000 ∧
    (pressHandler3 c7state true 3100).1.selectionState = 3000 ∧
    (pressHandler3 c7state true 3100).2 = 0 ∧
    (pressHandler3 c7state true 3100).1.userActionFeedbackRequest = false := by decide

/-! Claim C10: round-trip of the MQTT configuration through the store. -/

/-- Characterization of the ascending write loop `writeSeq`. -/
theorem writeSeq_get (e : Nat → Nat) (base : Nat) (f : Nat → Nat) : forall n x,
    writeSeq e base f n x
      = if base <= x ∧ x < base + n then f (x - base) % 256 else e x := by
  intro n
  induction n with
  | zero =>
    intro x
    show e x = _
    rw [if_neg (by omega)]
  | succ n ih =>
    intro x
    show writeEEPROM (writeSeq e base f n) (base + n) (f n) x = _
    unfold writeEEPROM
    by_cases hx : x = base + n
    · subst hx
      rw [if_pos rfl, if_pos (by omega)]
      have harg : base + n - base = n := by omega
      rw [harg]
    · rw [if_neg hx, ih x]
      by_cases h2 : base <= x ∧ x < base + n
      · rw [if_pos h2, if_pos (by omega)]
      · rw [if_neg h2, if_neg (by omega)]

/-- The checksum-byte writes do not touch addresses 5 and up. -/
theorem storeCRCBytes_ge5 (e : Nat → Nat) (crc : Nat) {x : Nat} (hx : 5 <= x) :
    storeCRCBytes e crc x = e x := by
  unfold storeCRCBytes writeEEPROM
  rw [if_neg (by omega), if_neg (by omega), if_neg (by omega), if_neg (by omega)]

/-- The store region after `storeCRC` agrees with the region before it
from address 5 on. -/
theorem storeCRC_ge5 (e : Nat → Nat) {x : Nat} (hx : 5 <= x) :
    storeCRC e x = e x := by
  unfold storeCRC
  exact storeCRCBytes_ge5 e (calculate_crc e) hx

/-- An Arduino `String` built from a buffer holding the bytes of `s`,
then a zero, recovers exactly `s` when `s` has no zero byte: reading
`n > s.length` bytes and truncating at the first zero is the identity. -/
theorem readBytes_takeWhile : forall (s : List Nat) (base n : Nat) (e : Nat → Nat),
    s.length < n ->
    (forall i, (h : i < s.length) -> e (base + i) = s.get ⟨i, h⟩) ->
    e (base + s.length) = 0 ->
    (forall b, b ∈ s -> b ≠ 0) ->
    (readBytes e base n).takeWhile (fun b => b != 0) = s := by
  intro s
  induction s with
  | nil =>
    intro base n e hn hget hz hnz
    cases n with
    | zero => omega
    | succ m =>
      show ((e base) :: readBytes e (base + 1) m).takeWhile (fun b => b != 0) = []
      have h0 : e base = 0 := by simpa using hz
      simp [List.takeWhile_cons, h0]
  | cons a t ih =>
    intro base n e hn hget hz hnz
    cases n with
    | zero => simp at hn
    | succ m =>
      show ((e base) :: readBytes e (base + 1) m).takeWhile (fun b => b != 0) = a :: t
      have hb : e base = a := by
        have h1 := hget 0 (by simp)
        simpa using h1
      have ha : a ≠ 0 := hnz a (by simp)
      rw [hb]
      simp only [List.takeWhile_cons, bne_iff_ne, ne_eq, ha, not_false_eq_true, if_true]
      congr 1
      apply ih (base + 1) m e
      · simp at hn
        omega
      · intro i hi
        have harr : base + 1 + i = base + (i + 1) := by omega
        have h2 := hget (i + 1) (by simp; omega)
        rw [harr, h2]
        rfl
      · have harr : base + 1 + t.length = base + (a :: t).length := by simp; omega
        rw [harr, hz]
      · intro b hbt
        exact hnz b (List.mem_cons_of_mem a hbt)

/-- Claim C10: for every server address of at most 255 nonzero bytes
and every value of the configured flag, saving the MQTT configuration
and restoring it yields the same address and the same flag, for any
contents of the out-of-bounds `c_str` tail. -/
theorem C10_mqtt_config_roundtrip (e : Nat → Nat) (server : List Nat) (configured : Bool)
    (junk : Nat → Nat) (hlen : server.length <= 255)
    (hbytes : forall b, b ∈ server -> b < 256) (hnz : forall b, b ∈ server -> b ≠ 0) :
    restoreMQTTConfigurationFromEEPROM
        (saveMQTTConfigurationToEEPROM e server configured junk)
      = (server, configured) := by
  have hslot : forall i, i < 256 ->
      saveMQTTConfigurationToEEPROM e server configured junk (6 + i)
        = cStrByte server junk i % 256 := by
    intro i hi
    unfold saveMQTTConfigurationToEEPROM
    rw [storeCRC_ge5 _ (by omega), writeSeq_get, if_pos (by omega)]
    have harg : 6 + i - 6 = i := by omega
    rw [harg]
  have hflag : saveMQTTConfigurationToEEPROM e server configured junk 5
      = (if configured then 0xEB else 0x00) % 256 := by
    unfold saveMQTTConfigurationToEEPROM
    rw [storeCRC_ge5 _ (by omega), writeSeq_get, if_neg (by omega)]
    unfold writeEEPROM
    rw [if_pos rfl]
  unfold restoreMQTTConfigurationFromEEPROM
  refine Prod.ext ?_ ?_
  · show (readBytes _ 6 256).takeWhile (fun b => b != 0) = server
    apply readBytes_takeWhile server 6 256 _ (by omega)
    · intro i hi
      rw [hslot i (by omega)]
      unfold cStrByte
      rw [dif_pos hi, Nat.mod_eq_of_lt (hbytes _ (server.get_mem i hi))]
    · rw [hslot server.length (by omega)]
      unfold cStrByte
      rw [dif_neg (by omega), if_pos rfl]
    · exact hnz
  · show (saveMQTTConfigurationToEEPROM e server configured junk 5 == 0xEB) = configured
    rw [hflag]
    cases configured <;> decide

/-- Witness for C10: a concrete two-byte server address and an enabled
flag survive the save/restore round trip. -/
theorem C10_mqtt_config_roundtrip_witness :
    restoreMQTTConfigurationFromEEPROM
        (saveMQTTConfigurationToEEPROM zeroStore [109, 120] true zeroStore)
      = ([109, 120], true) :=
  C10_mqtt_config_roundtrip zeroStore [109, 120] true zeroStore (by decide)
    (by decide) (by decide)

end WIFIOnOff
